import Mathlib

/-!
Verification development for the task-management backend
(Express + MySQL REST API with bulk CSV/Excel import).

The definitions below are a shallow embedding of the JavaScript source:
* `backend/routes/tasks.js` (task CRUD routes, Excel export, bulk upload),
* `backend/config/database.js` (schema defaults used by the routes),
* `backend/server.js` (error-handling middleware).

The database is modelled as a list of task rows; each Express handler
becomes a pure function from the request data and the current table to a
response value and the new table.  External JavaScript primitives
(`parseInt`, `new Date(...).toISOString()`, the `express-validator`
checks) are modelled on the value subset the routes actually exercise;
each such model carries a comment saying which subset is covered.
-/

namespace TaskApp

/-! ## JavaScript value helpers -/

/-- Model of the JavaScript truthiness-based default `a || d` for string
values: `undefined`/missing and the empty string are falsy. -/
def jsOr (o : Option String) (d : String) : String :=
  match o with
  | none => d
  | some s => if s == "" then d else s

/-- Whitespace accepted by `parseInt` before the number. -/
def jsSpace (c : Char) : Bool :=
  c == ' ' || c == '\t' || c == '\n' || c == '\r'

def digitVal (c : Char) : Nat := c.toNat - '0'.toNat

def natOfDigits (cs : List Char) : Nat :=
  cs.foldl (fun a c => a * 10 + digitVal c) 0

def isHexDigit (c : Char) : Bool :=
  c.isDigit || ('a' ≤ c && c ≤ 'f') || ('A' ≤ c && c ≤ 'F')

def hexVal (c : Char) : Nat :=
  if c.isDigit then digitVal c
  else if 'a' ≤ c && c ≤ 'f' then c.toNat - 'a'.toNat + 10
  else c.toNat - 'A'.toNat + 10

def natOfHexDigits (cs : List Char) : Nat :=
  cs.foldl (fun a c => a * 16 + hexVal c) 0

/-- Parse after the optional sign, as JavaScript `parseInt` does: a
leading `0x`/`0X` switches to hexadecimal, otherwise the longest leading
run of decimal digits is taken; no digits at all gives `NaN` (`none`). -/
def parseIntCore (sign : Int) (cs : List Char) : Option Int :=
  match cs with
  | '0' :: 'x' :: r =>
    let ds := r.takeWhile isHexDigit
    if ds.isEmpty then none else some (sign * (natOfHexDigits ds : Int))
  | '0' :: 'X' :: r =>
    let ds := r.takeWhile isHexDigit
    if ds.isEmpty then none else some (sign * (natOfHexDigits ds : Int))
  | _ =>
    let ds := cs.takeWhile Char.isDigit
    if ds.isEmpty then none else some (sign * (natOfDigits ds : Int))

/-- Model of JavaScript `parseInt(s)` (radix unspecified): skip leading
whitespace, read an optional sign, then parse; `none` models `NaN`. -/
def parseIntJS (s : String) : Option Int :=
  match s.data.dropWhile jsSpace with
  | '-' :: r => parseIntCore (-1) r
  | '+' :: r => parseIntCore 1 r
  | r => parseIntCore 1 r

/-! ## Calendar dates

The routes feed raw values to `new Date(...)` and keep
`toISOString().split('T')[0]`.  The model covers the date-only ISO form
`YYYY-MM-DD` (the format the app's own template and export produce);
other `Date`-parseable formats are outside the modelled subset. -/

def isLeapYear (y : Nat) : Bool :=
  (y % 4 == 0 && y % 100 != 0) || y % 400 == 0

def daysInMonth (y m : Nat) : Nat :=
  if m == 2 then (if isLeapYear y then 29 else 28)
  else if m == 4 || m == 6 || m == 9 || m == 11 then 30
  else 31

/-- Parse a `YYYY-MM-DD` character list into year/month/day, checking
calendar validity the way `new Date` does for ISO date strings. -/
def ymdParse (cs : List Char) : Option (Nat × Nat × Nat) :=
  match cs with
  | [y1, y2, y3, y4, '-', m1, m2, '-', d1, d2] =>
    if [y1, y2, y3, y4, m1, m2, d1, d2].all Char.isDigit then
      let y := natOfDigits [y1, y2, y3, y4]
      let m := natOfDigits [m1, m2]
      let d := natOfDigits [d1, d2]
      if 1 ≤ m && m ≤ 12 && 1 ≤ d && d ≤ daysInMonth y m then
        some (y, m, d)
      else none
    else none
  | _ => none

/-- Model of `new Date(raw).toISOString().split('T')[0]` for an optional
raw string: a missing (`undefined`) or empty value gives an invalid date,
whose `toISOString` throws (`none`); a valid `YYYY-MM-DD` string parses
as UTC midnight, so the date part round-trips unchanged. -/
def parseDateJS (o : Option String) : Option String :=
  match o with
  | none => none
  | some s => (ymdParse s.data).map fun _ => s

/-! ## Data model

Row of the `tasks` table (`database.js`).  The `created_at` and
`updated_at` timestamp columns are maintained by the database and not
inspected by any route, so they are left out of the model. -/

structure Task where
  id : Nat
  user_id : Nat
  title : String
  description : String
  effort_days : Int
  due_date : String
  status : String
deriving Repr, DecidableEq

/-- AUTO_INCREMENT id handed out for the next insert. -/
def nextId (db : List Task) : Nat :=
  db.foldr (fun t m => max t.id m) 0 + 1

/-- Fields of a candidate task produced by validation / row
normalisation, before it is inserted for a user. -/
structure CandidateTask where
  title : String
  description : String
  effort_days : Int
  due_date : String
deriving Repr, DecidableEq

/-- Row created by
`INSERT INTO tasks (user_id, title, description, effort_days, due_date)`;
the `status` column takes the schema default `'pending'`. -/
def mkTask (id uid : Nat) (c : CandidateTask) : Task :=
  { id := id, user_id := uid, title := c.title,
    description := c.description, effort_days := c.effort_days,
    due_date := c.due_date, status := "pending" }

/-! ## Request bodies and express-validator checks

A request body field is `none` when absent from the JSON payload.
`effort_days` is modelled as an optional integer: a present
non-integer value behaves like an absent one for the `isInt` check
(both fail), and no claim depends on distinguishing them. -/

structure TaskBody where
  title : Option String
  description : Option String
  effort_days : Option Int
  due_date : Option String
  status : Option String
deriving Repr, DecidableEq

/-- Check `body('title').notEmpty()`: a missing field or an empty string
fails. -/
def checkTitle (b : TaskBody) : List String :=
  match b.title with
  | some s => if s == "" then ["Title is required"] else []
  | none => ["Title is required"]

/-- Check `body('effort_days').isInt(\x7bmin: 1\x7d)`: the validator is
not marked `optional()`, so a missing field fails it as well. -/
def checkEffort (b : TaskBody) : List String :=
  match b.effort_days with
  | some n => if n < 1 then ["Effort must be at least 1 day"] else []
  | none => ["Effort must be at least 1 day"]

/-- Model of the external `isISO8601` validator on the date-only subset
used by this application. -/
def isISO8601 (s : String) : Bool :=
  (ymdParse s.data).isSome

/-- Check `body('due_date').isISO8601()`: missing or unparseable fails. -/
def checkDue (b : TaskBody) : List String :=
  match b.due_date with
  | some s => if isISO8601 s then [] else ["Please provide a valid due date"]
  | none => ["Please provide a valid due date"]

/-- Check `body('status').optional().isIn([...])`: absent is fine, a
present value must be one of the three states. -/
def checkStatus (b : TaskBody) : List String :=
  match b.status with
  | some s =>
    if ["pending", "in_progress", "completed"].contains s then []
    else ["Invalid status"]
  | none => []

/-- Validation chain of `POST /tasks` (`description` is `optional()` and
contributes no error). -/
def validateCreate (b : TaskBody) : List String :=
  checkTitle b ++ checkEffort b ++ checkDue b

/-- Validation chain of `PUT /tasks/:id`: the create chain plus the
optional `status` check. -/
def validateUpdate (b : TaskBody) : List String :=
  validateCreate b ++ checkStatus b

/-! ## CRUD routes (`routes/tasks.js`)

Authentication middleware is out of scope; every route receives the
authenticated user's id (`req.user.id`) as `uid`. -/

inductive GetResult
  | notFound
  | ok (t : Task)
deriving Repr, DecidableEq

/-- `GET /tasks/:id`: `SELECT * FROM tasks WHERE id = ? AND user_id = ?`;
an empty result set answers 404, otherwise the first row is returned. -/
def getTaskRoute (db : List Task) (uid tid : Nat) : GetResult :=
  match db.filter (fun t => t.id == tid && t.user_id == uid) with
  | [] => .notFound
  | t :: _ => .ok t

inductive PostResult
  | validationError (errors : List String)
  | created (t : Task)
deriving Repr, DecidableEq

/-- `POST /tasks`: run the validators; on failure answer 400 with the
error list, otherwise insert
`(user_id, title, description || '', effort_days, due_date)` (status
takes the schema default `'pending'`) and return the new row. -/
def postTaskRoute (db : List Task) (uid : Nat) (b : TaskBody) :
    PostResult × List Task :=
  let errs := validateCreate b
  if errs.isEmpty then
    let t := mkTask (nextId db) uid
      { title := b.title.getD "", description := jsOr b.description "",
        effort_days := b.effort_days.getD 0, due_date := b.due_date.getD "" }
    (.created t, db ++ [t])
  else (.validationError errs, db)

inductive PutResult
  | validationError (errors : List String)
  | notFound
  | ok (t : Option Task)
deriving Repr, DecidableEq

/-- Effect of the `UPDATE tasks SET title = ?, description = ?,
effort_days = ?, due_date = ?, status = ? WHERE id = ? AND user_id = ?`
statement on one row: the matching row gets the body values
(`description || ''`, `status || 'pending'`), every other row is left
alone. -/
def updateRow (uid tid : Nat) (b : TaskBody) (t : Task) : Task :=
  if t.id == tid && t.user_id == uid then
    { t with title := b.title.getD "",
             description := jsOr b.description "",
             effort_days := b.effort_days.getD 0,
             due_date := b.due_date.getD "",
             status := jsOr b.status "pending" }
  else t

/-- The tasks table after the `UPDATE` statement ran. -/
def updatedTable (db : List Task) (uid tid : Nat) (b : TaskBody) :
    List Task :=
  db.map (updateRow uid tid b)

/-- `PUT /tasks/:id`: validate; check
`SELECT id FROM tasks WHERE id = ? AND user_id = ?` and answer 404 when
empty; otherwise run the `UPDATE` and return the row re-read by
`SELECT * FROM tasks WHERE id = ?`. -/
def putTaskRoute (db : List Task) (uid tid : Nat) (b : TaskBody) :
    PutResult × List Task :=
  if (validateUpdate b).isEmpty then
    match db.filter (fun t => t.id == tid && t.user_id == uid) with
    | [] => (.notFound, db)
    | _ :: _ =>
      (.ok ((updatedTable db uid tid b).find? fun t => t.id == tid),
       updatedTable db uid tid b)
  else (.validationError (validateUpdate b), db)

inductive DeleteResult
  | notFound
  | deleted
deriving Repr, DecidableEq

/-- `DELETE /tasks/:id`:
`DELETE FROM tasks WHERE id = ? AND user_id = ?`; zero affected rows
answers 404. -/
def deleteTaskRoute (db : List Task) (uid tid : Nat) :
    DeleteResult × List Task :=
  let remaining := db.filter fun t => !(t.id == tid && t.user_id == uid)
  if db.length - remaining.length == 0 then (.notFound, remaining)
  else (.deleted, remaining)

/-! ## Row Normalizer: delimited-text (CSV) path

`csv-parser` hands each data row to the handler as an object keyed by
the header names exactly as written in the file; the model is an
association list in header order with exact-key lookup. -/

/-- Property access `row[k]`: `none` models `undefined` (no such
header). -/
def lookupField (row : List (String × String)) (k : String) :
    Option String :=
  (row.find? fun p => p.1 == k).map Prod.snd

/-- The JavaScript fallback chain `row[k1] || row[k2] || ...`: the first
truthy (present and non-empty) value wins; `none` when every candidate
is falsy. -/
def firstTruthy (row : List (String × String)) :
    List String → Option String
  | [] => none
  | k :: ks =>
    match lookupField row k with
    | some v => if v == "" then firstTruthy row ks else some v
    | none => firstTruthy row ks

def csvTitleKeys : List String := ["title", "Title"]
def csvDescrKeys : List String := ["description", "Description"]
def csvEffortKeys : List String := ["effort_days", "Effort (Days)", "effort"]
def csvDueKeys : List String := ["due_date", "Due Date"]

/-- Model of `JSON.stringify(row)` for a string-valued row object (used
only inside error messages; embedded quotes are not re-escaped, which no
claim exercises). -/
def jsonOfRow (row : List (String × String)) : String :=
  "\x7b" ++
    String.intercalate ","
      (row.map fun p => "\"" ++ p.1 ++ "\":\"" ++ p.2 ++ "\"") ++
  "\x7d"

/-- Result of normalising one row: a candidate task, or the error string
pushed onto the `errors` array. -/
inductive RowResult
  | ok (t : CandidateTask)
  | err (msg : String)
deriving Repr, DecidableEq

def RowResult.isErr : RowResult → Bool
  | .ok _ => false
  | .err _ => true

/-- CSV data-row handler of `POST /tasks/bulk-upload`: build the task
object (`title`, `description`, `effort_days` via `parseInt` with a
literal `1` fallback at the end of the chain, `due_date` via
`new Date(...).toISOString()`), then reject the row when the title is
falsy or the effort is `NaN`.  An invalid date makes `toISOString`
throw, which the surrounding `catch` turns into an
`Error processing row` message (`Invalid time value` is the message of
the `RangeError` thrown by `toISOString`). -/
def normalizeCsvRow (row : List (String × String)) : RowResult :=
  let titleOpt := firstTruthy row csvTitleKeys
  let descr := (firstTruthy row csvDescrKeys).getD ""
  let effortOpt :=
    match firstTruthy row csvEffortKeys with
    | none => some (1 : Int)
    | some s => parseIntJS s
  match parseDateJS (firstTruthy row csvDueKeys) with
  | none =>
    .err ("Error processing row: " ++ jsonOfRow row ++ " - Invalid time value")
  | some due =>
    match titleOpt, effortOpt with
    | some t, some e =>
      .ok { title := t, description := descr, effort_days := e, due_date := due }
    | _, _ => .err ("Invalid row data: " ++ jsonOfRow row)

/-! ## Row Normalizer: spreadsheet (Excel) path -/

/-- Value held by a worksheet cell (`row.getCell(i).value`): empty cells
are `null`, and ExcelJS yields strings, numbers, or `Date` objects (the
latter modelled by their `YYYY-MM-DD` date part).  Fractional numbers
are outside the modelled subset. -/
inductive CellValue
  | null
  | str (s : String)
  | num (n : Int)
  | date (ymd : String)
deriving Repr, DecidableEq

/-- JavaScript truthiness of a cell value (`null`, `''` and `0` are
falsy; `Date` objects are always truthy). -/
def cellTruthy : CellValue → Bool
  | .null => false
  | .str s => !(s == "")
  | .num n => !(n == 0)
  | .date _ => true

/-- String stored for a cell used as a text column (MySQL coerces
numbers to their decimal form; the `null` case is only reached for
falsy cells, which never make it into a task). -/
def cellToString : CellValue → String
  | .null => ""
  | .str s => s
  | .num n => toString n
  | .date ymd => ymd

/-- `parseInt` applied to a raw cell value: `parseInt(null)` is `NaN`,
numbers go through their decimal string form, and the `Date` object's
string form never starts with a digit. -/
def parseIntCell : CellValue → Option Int
  | .null => none
  | .str s => parseIntJS s
  | .num n => some n
  | .date _ => none

/-! Civil-calendar conversion for `new Date(ms)` on numeric cell values
(days-since-epoch decomposition; Gregorian calendar). -/

def civilFromDays (z : Int) : Int × Nat × Nat :=
  let era : Int := (z + 719468).fdiv 146097
  let doe : Nat := ((z + 719468) - era * 146097).toNat
  let yoe : Nat := ((doe - doe / 1460) + doe / 36524 - doe / 146096) / 365
  let doy : Nat := doe - (365 * yoe + yoe / 4 - yoe / 100)
  let mp : Nat := (5 * doy + 2) / 153
  let d : Nat := doy - (153 * mp + 2) / 5 + 1
  let m : Nat := if mp < 10 then mp + 3 else mp - 9
  (era * 400 + (yoe : Int) + (if m ≤ 2 then 1 else 0), m, d)

def pad2 (n : Nat) : String :=
  if n < 10 then "0" ++ toString n else toString n

def pad4 (n : Nat) : String :=
  if n < 10 then "000" ++ toString n
  else if n < 100 then "00" ++ toString n
  else if n < 1000 then "0" ++ toString n
  else toString n

/-- Date part of `new Date(ms).toISOString()` for a millisecond
timestamp. -/
def msToDateString (ms : Int) : String :=
  let c := civilFromDays (ms.fdiv 86400000)
  (if c.1 < 0 then "-" ++ pad4 (-c.1).toNat else pad4 c.1.toNat) ++
    "-" ++ pad2 c.2.1 ++ "-" ++ pad2 c.2.2

/-- `new Date(cell).toISOString().split('T')[0]` on a raw cell value:
`new Date(null)` is the epoch (so an empty date cell yields
`1970-01-01`), numbers are millisecond timestamps, strings follow the
date-only parse, and a `Date` object is copied as-is. -/
def parseDateCell : CellValue → Option String
  | .null => some "1970-01-01"
  | .str s => parseDateJS (some s)
  | .num n => some (msToDateString n)
  | .date ymd => some ymd

/-- One worksheet row read positionally: columns 1-4 are title,
description, effort, due date. -/
structure ExcelRow where
  c1 : CellValue
  c2 : CellValue
  c3 : CellValue
  c4 : CellValue
deriving Repr, DecidableEq

/-- Excel `eachRow` handler of `POST /tasks/bulk-upload` for one data
row (`rowNumber ≥ 2`): effort is `parseInt(cell) || 1`, so both `NaN`
and `0` fall back to `1`; the validity check then only rejects a falsy
title (the due date string is never empty and the effort is never
`NaN`). -/
def normalizeExcelRow (rowNumber : Nat) (r : ExcelRow) : RowResult :=
  let descr := if cellTruthy r.c2 then cellToString r.c2 else ""
  let effort : Int :=
    match parseIntCell r.c3 with
    | none => 1
    | some e => if e == 0 then 1 else e
  match parseDateCell r.c4 with
  | none =>
    .err ("Error processing row " ++ toString rowNumber ++
      ": Invalid time value")
  | some due =>
    if cellTruthy r.c1 then
      .ok { title := cellToString r.c1, description := descr,
            effort_days := effort, due_date := due }
    else .err ("Invalid data in row " ++ toString rowNumber)

/-! ## Bulk Import Pipeline (`POST /tasks/bulk-upload`) -/

/-- MIME types accepted by the multer `fileFilter`. -/
def allowedTypes : List String :=
  ["application/vnd.ms-excel",
   "application/vnd.openxmlformats-officedocument.spreadsheetml.sheet",
   "text/csv"]

/-- Message of the error the `fileFilter` passes to its callback for any
other declared type. -/
def invalidFileTypeMessage : String :=
  "Invalid file type. Only Excel and CSV files are allowed."

/-- Logical content of the uploaded file: a `text/csv` upload is parsed
as header-keyed rows, any other accepted type goes down the ExcelJS
branch (worksheet rows in order; row 1 is the header). -/
inductive FileData
  | csv (rows : List (List (String × String)))
  | excel (rows : List ExcelRow)

/-- Run the per-row handlers over the whole file: every CSV data row is
normalised; `eachRow` numbers worksheet rows from 1 and the handler
returns early on `rowNumber === 1`. -/
def parseFileRows : FileData → List RowResult
  | .csv rows => rows.map normalizeCsvRow
  | .excel rows =>
    rows.enum.filterMap fun p =>
      if p.1 == 0 then none else some (normalizeExcelRow (p.1 + 1) p.2)

/-- The `tasks` array accumulated by the handlers. -/
def validRows (rs : List RowResult) : List CandidateTask :=
  rs.filterMap fun r =>
    match r with
    | .ok t => some t
    | .err _ => none

/-- The `errors` array accumulated by the handlers. -/
def rowErrors (rs : List RowResult) : List String :=
  rs.filterMap fun r =>
    match r with
    | .ok _ => none
    | .err m => some m

/-- Sequential insert loop over the valid candidates.  `insf c` is the
outcome of the `INSERT` for candidate `c`: `none` on success, or the
database error message caught by the per-task `try/catch`, which is
appended to the error list while the loop continues with the remaining
tasks.  Returns the final table, `insertedTasks.length`, and the final
error list. -/
def insertLoop (uid : Nat) (insf : CandidateTask → Option String) :
    List Task → List String → List CandidateTask →
      List Task × Nat × List String
  | db, errs, [] => (db, 0, errs)
  | db, errs, c :: cs =>
    match insf c with
    | none =>
      let r := insertLoop uid insf (db ++ [mkTask (nextId db) uid c]) errs cs
      (r.1, r.2.1 + 1, r.2.2)
    | some m =>
      insertLoop uid insf db
        (errs ++ ["Failed to insert task \"" ++ c.title ++ "\": " ++ m]) cs

/-- Responses the bulk-upload request can end with.  `invalidFileType`
is the multer `fileFilter` error, turned into a response by the
error-handling middleware in `server.js`; `serverError` is the 500 of
the outer `catch`. -/
inductive BulkResponse
  | invalidFileType (msg : String)
  | noValidTasks (errors : List String)
  | imported (count : Nat) (errors : Option (List String))
  | serverError
deriving Repr, DecidableEq

def BulkResponse.statusCode : BulkResponse → Nat
  | .invalidFileType _ => 400
  | .noValidTasks _ => 400
  | .imported _ _ => 200
  | .serverError => 500

/-- Final state of a bulk-upload request: the response sent, the tasks
table afterwards, and whether the uploaded temporary file is gone by the
time the response is sent. -/
structure BulkOutcome where
  response : BulkResponse
  db : List Task
  tempFileAbsent : Bool
deriving Repr, DecidableEq

/-- The bulk-upload request end to end.

`file` is the result of reading the stored upload: `Except.error`
models the stream/`readFile` rejection that lands in the outer `catch`
(which removes the file if it still exists before answering 500).

The paths mirror the handler: the multer `fileFilter` rejects a
disallowed MIME type before the file is stored (so no temporary file
exists); otherwise the rows are parsed and `fs.unlinkSync(filePath)`
runs before the zero-valid check; with no valid tasks the response is
the 400 with the full error list and no insert runs; otherwise the
insert loop runs and the reply carries `insertedTasks.length` and
`errors.length > 0 ? errors : undefined`. -/
def bulkUploadRoute (uid : Nat) (mimetype : String)
    (file : Except String FileData)
    (insf : CandidateTask → Option String)
    (db : List Task) : BulkOutcome :=
  if allowedTypes.contains mimetype then
    match file with
    | .error _ => { response := .serverError, db := db, tempFileAbsent := true }
    | .ok fd =>
      let results := parseFileRows fd
      let tasks := validRows results
      let errs := rowErrors results
      if tasks.isEmpty then
        { response := .noValidTasks errs, db := db, tempFileAbsent := true }
      else
        let r := insertLoop uid insf db errs tasks
        { response := .imported r.2.1
            (if r.2.2.isEmpty then none else some r.2.2),
          db := r.1, tempFileAbsent := true }
  else
    { response := .invalidFileType invalidFileTypeMessage, db := db,
      tempFileAbsent := true }

/-! ## Error-handling middleware (`server.js`) -/

def listStartsWith : List Char → List Char → Bool
  | [], _ => true
  | _ :: _, [] => false
  | a :: as, b :: bs => a == b && listStartsWith as bs

/-- Substring containment, as `String.prototype.includes`. -/
def listContainsSub (pat : List Char) : List Char → Bool
  | [] => pat.isEmpty
  | c :: rest => listStartsWith pat (c :: rest) || listContainsSub pat rest

def strIncludes (s pat : String) : Bool :=
  listContainsSub pat.data s.data

/-- The error-handling middleware: a `LIMIT_FILE_SIZE` multer error or a
message containing `Invalid file type` answers 400, anything else 500. -/
def errorMiddlewareStatus (code : Option String) (msg : String) : Nat :=
  if code == some "LIMIT_FILE_SIZE" then 400
  else if strIncludes msg "Invalid file type" then 400
  else 500

/-! ## Helper lemmas -/

/-- A row whose id matches but whose owner is `a ≠ b` fails the
`id = ? AND user_id = ?` predicate for user `b`. -/
theorem ownerPred_false {u : Task} {a b tid : Nat} (hab : a ≠ b)
    (hu : u.id = tid → u.user_id = a) :
    (u.id == tid && u.user_id == b) = false := by
  by_cases h : u.id = tid
  · have h2 := hu h
    simp [h, h2, hab]
  · simp [h]

theorem validRows_cons_ok (t : CandidateTask) (rs : List RowResult) :
    validRows (.ok t :: rs) = t :: validRows rs := rfl

theorem validRows_cons_err (m : String) (rs : List RowResult) :
    validRows (.err m :: rs) = validRows rs := rfl

theorem rowErrors_cons_ok (t : CandidateTask) (rs : List RowResult) :
    rowErrors (.ok t :: rs) = rowErrors rs := rfl

theorem rowErrors_cons_err (m : String) (rs : List RowResult) :
    rowErrors (.err m :: rs) = m :: rowErrors rs := rfl

/-- The candidates and the per-row errors partition the normalised
rows. -/
theorem validRows_add_rowErrors_length (rs : List RowResult) :
    (validRows rs).length + (rowErrors rs).length = rs.length := by
  induction rs with
  | nil => rfl
  | cons r rs ih =>
    cases r with
    | ok t => rw [validRows_cons_ok, rowErrors_cons_ok]; simp; omega
    | err m => rw [validRows_cons_err, rowErrors_cons_err]; simp; omega

/-- When every insert succeeds, the loop appends one fresh row per
candidate, all owned by `uid`, and leaves the error list untouched. -/
theorem insertLoop_all_ok (uid : Nat) (insf : CandidateTask → Option String) :
    ∀ (cs : List CandidateTask) (db : List Task) (errs : List String),
      (∀ c ∈ cs, insf c = none) →
      ∃ ts : List Task,
        insertLoop uid insf db errs cs = (db ++ ts, cs.length, errs) ∧
        ts.length = cs.length ∧ ∀ t ∈ ts, t.user_id = uid := by
  intro cs
  induction cs with
  | nil => intro db errs _; exact ⟨[], by simp [insertLoop], by simp, by simp⟩
  | cons c cs ih =>
    intro db errs h
    have hc : insf c = none := h c (List.mem_cons_self _ _)
    obtain ⟨ts, h1, h2, h3⟩ := ih (db ++ [mkTask (nextId db) uid c]) errs
      (fun x hx => h x (List.mem_cons_of_mem _ hx))
    refine ⟨mkTask (nextId db) uid c :: ts, ?_, by simp [h2], ?_⟩
    · simp [insertLoop, hc, h1]
    · intro t ht
      rcases List.mem_cons.mp ht with h | h
      · subst h; rfl
      · exact h3 t h

/-- The loop never aborts: whatever the insert outcomes, the imported
count is the number of successful candidates and exactly one message is
appended per failed candidate. -/
theorem insertLoop_processes_all (uid : Nat)
    (f : CandidateTask → Option String) :
    ∀ (cs : List CandidateTask) (db : List Task) (errs : List String),
      (insertLoop uid f db errs cs).2.1 =
        (cs.filter fun c => (f c).isNone).length ∧
      (insertLoop uid f db errs cs).2.2.length =
        errs.length + (cs.filter fun c => (f c).isSome).length := by
  intro cs
  induction cs with
  | nil => intro db errs; simp [insertLoop]
  | cons c cs ih =>
    intro db errs
    cases hc : f c with
    | none =>
      have h := ih (db ++ [mkTask (nextId db) uid c]) errs
      constructor
      · simp [insertLoop, hc, List.filter_cons, h.1]
      · simp [insertLoop, hc, List.filter_cons, h.2]
    | some m =>
      have h := ih db
        (errs ++ ["Failed to insert task \"" ++ c.title ++ "\": " ++ m])
      constructor
      · simp [insertLoop, hc, List.filter_cons, h.1]
      · simp [insertLoop, hc, List.filter_cons, h.2]; omega

/-! ## Claims -/

/-- C1: for users `a ≠ b` and a task id whose row (if any) belongs to
`a`, a GET, PUT (with a body passing validation), or DELETE issued by
`b` answers not-found — not forbidden, not success — and the table is
unchanged: every read and mutation is scoped to the authenticated
user. -/
theorem c1_cross_user_isolation (db : List Task) (a b tid : Nat)
    (bdy : TaskBody) (hab : a ≠ b)
    (hown : ∀ u ∈ db, u.id = tid → u.user_id = a)
    (hbody : validateUpdate bdy = []) :
    getTaskRoute db b tid = GetResult.notFound ∧
    putTaskRoute db b tid bdy = (PutResult.notFound, db) ∧
    deleteTaskRoute db b tid = (DeleteResult.notFound, db) := by
  have hpred : ∀ u ∈ db, (u.id == tid && u.user_id == b) = false :=
    fun u hu => ownerPred_false hab (hown u hu)
  have hfil : db.filter (fun t => t.id == tid && t.user_id == b) = [] :=
    List.filter_eq_nil_iff.mpr (by intro u hu; simp [hpred u hu])
  have hrem : db.filter (fun t => !(t.id == tid && t.user_id == b)) = db :=
    List.filter_eq_self.mpr (by intro u hu; simp [hpred u hu])
  refine ⟨?_, ?_, ?_⟩
  · unfold getTaskRoute
    rw [hfil]
  · simp [putTaskRoute, hbody, hfil]
  · simp only [deleteTaskRoute]
    rw [hrem]
    simp

/-- Witness for C1 at a concrete table: user 6 asking for user 5's task
1 gets not-found on all three routes and the table stays intact. -/
theorem c1_cross_user_isolation_witness :
    getTaskRoute [⟨1, 5, "T", "", 2, "2024-12-31", "pending"⟩] 6 1 =
      GetResult.notFound ∧
    putTaskRoute [⟨1, 5, "T", "", 2, "2024-12-31", "pending"⟩] 6 1
        ⟨some "T2", none, some 3, some "2024-11-30", none⟩ =
      (PutResult.notFound, [⟨1, 5, "T", "", 2, "2024-12-31", "pending"⟩]) ∧
    deleteTaskRoute [⟨1, 5, "T", "", 2, "2024-12-31", "pending"⟩] 6 1 =
      (DeleteResult.notFound, [⟨1, 5, "T", "", 2, "2024-12-31", "pending"⟩]) :=
  c1_cross_user_isolation [⟨1, 5, "T", "", 2, "2024-12-31", "pending"⟩] 5 6 1
    ⟨some "T2", none, some 3, some "2024-11-30", none⟩
    (by decide) (by decide) (by decide)

/-- C10: a PUT by the owner whose body passes validation and omits
`status` succeeds and stores `'pending'` in the status column —
whatever the previous status was, omitting the field is not a no-op. -/
theorem c10_put_omitted_status_resets (db : List Task) (uid tid : Nat)
    (b : TaskBody) (t : Task)
    (hb : validateUpdate b = []) (hstat : b.status = none)
    (ht : t ∈ db) (hid : t.id = tid) (huid : t.user_id = uid) :
    ∃ r db2, putTaskRoute db uid tid b = (PutResult.ok r, db2) ∧
      (∀ u ∈ db2, u.id = tid → u.user_id = uid → u.status = "pending") ∧
      ∃ u ∈ db2, u.id = tid ∧ u.user_id = uid ∧ u.status = "pending" := by
  have hpt : (t.id == tid && t.user_id == uid) = true := by simp [hid, huid]
  have hmem : t ∈ db.filter (fun x => x.id == tid && x.user_id == uid) :=
    List.mem_filter.mpr ⟨ht, hpt⟩
  cases hfil : db.filter (fun x => x.id == tid && x.user_id == uid) with
  | nil => rw [hfil] at hmem; cases hmem
  | cons t0 l =>
    refine ⟨(updatedTable db uid tid b).find? (fun x => x.id == tid),
      updatedTable db uid tid b, ?_, ?_, ?_⟩
    · unfold putTaskRoute
      rw [hb, hfil]
      rfl
    · intro u hu hu1 hu2
      unfold updatedTable at hu
      obtain ⟨x, hx, hfx⟩ := List.mem_map.mp hu
      by_cases hc : (x.id == tid && x.user_id == uid) = true
      · rw [← hfx]
        unfold updateRow
        rw [if_pos hc]
        simp [jsOr, hstat]
      · have hxx : updateRow uid tid b x = x := by
          unfold updateRow; rw [if_neg hc]
        rw [hxx] at hfx
        subst hfx
        exact absurd (by simp [hu1, hu2]) hc
    · refine ⟨updateRow uid tid b t, List.mem_map_of_mem _ ht, ?_, ?_, ?_⟩ <;>
        (unfold updateRow; rw [if_pos hpt])
      · exact hid
      · exact huid
      · simp [jsOr, hstat]

/-- Witness for C10: the owner updates an `in_progress` task with a
valid body that omits `status`; the stored row comes back `pending`. -/
theorem c10_put_omitted_status_resets_witness :
    ∃ r db2,
      putTaskRoute [⟨1, 5, "T", "", 2, "2024-12-31", "in_progress"⟩] 5 1
          ⟨some "T2", some "d", some 3, some "2024-11-30", none⟩ =
        (PutResult.ok r, db2) ∧
      (∀ u ∈ db2, u.id = 1 → u.user_id = 5 → u.status = "pending") ∧
      ∃ u ∈ db2, u.id = 1 ∧ u.user_id = 5 ∧ u.status = "pending" :=
  c10_put_omitted_status_resets
    [⟨1, 5, "T", "", 2, "2024-12-31", "in_progress"⟩] 5 1
    ⟨some "T2", some "d", some 3, some "2024-11-30", none⟩
    ⟨1, 5, "T", "", 2, "2024-12-31", "in_progress"⟩
    (by decide) rfl (by decide) rfl rfl

/-- C3, counterexample: the claim says a payload without `effort_days`
is accepted and creates a task with effort 1.  In the code the
`effort_days` validator is not `optional()`, so the same payload is
rejected with the structured 400 error and no row is inserted. -/
theorem c3_counterexample :
    postTaskRoute [] 7 ⟨some "Report", none, none, some "2024-12-31", none⟩ =
      (PostResult.validationError ["Effort must be at least 1 day"], []) := by
  decide

/-- C3 (amended): a payload with `effort_days = 0` and a payload with
`effort_days` absent are both rejected by `POST /tasks` with the
structured validation error and no table change; the database default
of 1 is never reached through this endpoint. -/
theorem c3_effort_zero_or_absent_rejected (db : List Task) (uid : Nat)
    (b : TaskBody) (h : b.effort_days = none ∨ b.effort_days = some 0) :
    ∃ errs, postTaskRoute db uid b = (PostResult.validationError errs, db) ∧
      "Effort must be at least 1 day" ∈ errs := by
  have hE : checkEffort b = ["Effort must be at least 1 day"] := by
    rcases h with h | h <;> simp [checkEffort, h]
  have hmem : "Effort must be at least 1 day" ∈ validateCreate b := by
    simp [validateCreate, hE]
  refine ⟨validateCreate b, ?_, hmem⟩
  have hne : (validateCreate b).isEmpty = false := by
    cases hv : validateCreate b with
    | nil => rw [hv] at hmem; cases hmem
    | cons x l => rfl
  simp [postTaskRoute, hne]

/-- Witness for C3 (amended): the concrete zero-effort payload is
rejected with the effort validation message. -/
theorem c3_effort_zero_or_absent_rejected_witness :
    ∃ errs,
      postTaskRoute [] 7 ⟨some "Report", none, some 0, some "2024-12-31", none⟩ =
        (PostResult.validationError errs, []) ∧
      "Effort must be at least 1 day" ∈ errs :=
  c3_effort_zero_or_absent_rejected [] 7
    ⟨some "Report", none, some 0, some "2024-12-31", none⟩ (Or.inr rfl)

/-- CSV row used to refute C2: the title is non-empty, the due date
parses, the effort value is present but not parseable as an integer. -/
def c2Row : List (String × String) :=
  [("title", "A"), ("description", ""), ("effort_days", "abc"),
   ("due_date", "2024-12-31")]

/-- C2, counterexample: on the delimited-text path a present effort
value that fails `parseInt` makes `effort_days` `NaN`, and the
`isNaN` validity check rejects the row — it does not fall back to 1.
The conjuncts record that the row satisfies the claim's guard (title
non-empty, due date parses, effort present but unparseable) and is
nevertheless rejected. -/
theorem c2_counterexample :
    firstTruthy c2Row csvTitleKeys = some "A" ∧
    (parseDateJS (firstTruthy c2Row csvDueKeys)).isSome = true ∧
    firstTruthy c2Row csvEffortKeys = some "abc" ∧
    parseIntJS "abc" = none ∧
    RowResult.isErr (normalizeCsvRow c2Row) = true := by
  decide

/-- C2 (amended): the fall-back-to-1 behaviour for a present but
unparseable effort value holds only on the spreadsheet path
(`parseInt(cell) || 1`); on the delimited-text path a present
unparseable effort rejects the row, and only an absent (or falsy)
effort value falls back to 1. -/
theorem c2_effort_fallback_split :
    (∀ (rn : Nat) (r : ExcelRow), cellTruthy r.c1 = true →
      parseIntCell r.c3 = none →
      ∀ d, parseDateCell r.c4 = some d →
      normalizeExcelRow rn r =
        RowResult.ok
          { title := cellToString r.c1,
            description := if cellTruthy r.c2 then cellToString r.c2 else "",
            effort_days := 1, due_date := d }) ∧
    (∀ (row : List (String × String)) (s : String),
      firstTruthy row csvEffortKeys = some s → parseIntJS s = none →
      RowResult.isErr (normalizeCsvRow row) = true) ∧
    (∀ (row : List (String × String)) (t d : String),
      firstTruthy row csvEffortKeys = none →
      firstTruthy row csvTitleKeys = some t →
      parseDateJS (firstTruthy row csvDueKeys) = some d →
      normalizeCsvRow row =
        RowResult.ok
          { title := t, description := (firstTruthy row csvDescrKeys).getD "",
            effort_days := 1, due_date := d }) := by
  refine ⟨?_, ?_, ?_⟩
  · intro rn r h1 h2 d h3
    simp [normalizeExcelRow, h1, h2, h3]
  · intro row s hs hp
    simp only [normalizeCsvRow, hs, hp]
    cases parseDateJS (firstTruthy row csvDueKeys) <;>
      cases firstTruthy row csvTitleKeys <;> simp [RowResult.isErr]
  · intro row t d h1 h2 h3
    simp [normalizeCsvRow, h1, h2, h3]

/-- Witness for C2 (amended) at concrete rows: an Excel row with
unparseable effort is accepted with effort 1; a CSV row with
unparseable effort is rejected; a CSV row with no effort column is
accepted with effort 1. -/
theorem c2_effort_fallback_split_witness :
    normalizeExcelRow 2
        ⟨CellValue.str "A", CellValue.null, CellValue.str "xyz",
         CellValue.str "2024-12-31"⟩ =
      RowResult.ok
        { title := "A", description := "", effort_days := 1,
          due_date := "2024-12-31" } ∧
    RowResult.isErr
        (normalizeCsvRow [("title", "B"), ("effort", "zz"),
          ("due_date", "2024-01-02")]) = true ∧
    normalizeCsvRow [("title", "C"), ("due_date", "2024-01-03")] =
      RowResult.ok
        { title := "C", description := "", effort_days := 1,
          due_date := "2024-01-03" } :=
  ⟨c2_effort_fallback_split.1 2
      ⟨CellValue.str "A", CellValue.null, CellValue.str "xyz",
       CellValue.str "2024-12-31"⟩
      (by decide) (by decide) "2024-12-31" (by decide),
   c2_effort_fallback_split.2.1
      [("title", "B"), ("effort", "zz"), ("due_date", "2024-01-02")] "zz"
      (by decide) (by decide),
   c2_effort_fallback_split.2.2
      [("title", "C"), ("due_date", "2024-01-03")] "C" "2024-01-03"
      (by decide) (by decide) (by decide)⟩

/-- C9: the Row Normalizer's validity check is `isNaN` only, so a raw
effort value that parses to zero or a negative integer is accepted and
imported as-is.  At the failing inputs: a CSV row with effort `"0"`
yields an accepted candidate with `effort_days = 0` and the bulk insert
stores it; an Excel row with effort `-2` yields `effort_days = -2`
(the `|| 1` fallback only rescues `0` cells on the Excel path).  This
contradicts the spec's `integer ≥ 1` invariant, which the create and
update endpoints do enforce (`isInt(min 1)`) — the missing bulk-path
check is a code bug. -/
theorem c9_nonpositive_effort_imported :
    normalizeCsvRow
        [("title", "A"), ("effort_days", "0"), ("due_date", "2024-12-31")] =
      RowResult.ok
        { title := "A", description := "", effort_days := 0,
          due_date := "2024-12-31" } ∧
    normalizeExcelRow 2
        ⟨CellValue.str "B", CellValue.null, CellValue.num (-2),
         CellValue.str "2024-12-30"⟩ =
      RowResult.ok
        { title := "B", description := "", effort_days := -2,
          due_date := "2024-12-30" } ∧
    (bulkUploadRoute 7 "text/csv"
        (Except.ok (FileData.csv
          [[("title", "A"), ("effort_days", "0"), ("due_date", "2024-12-31")]]))
        (fun _ => none) []).db =
      [{ id := 1, user_id := 7, title := "A", description := "",
         effort_days := 0, due_date := "2024-12-31", status := "pending" }] := by
  decide

/-- C4: when no row of the uploaded file normalises to a valid
candidate, the bulk upload answers the 400 failure carrying the full
per-row error list, the table is untouched (no insert runs), and the
temporary file is gone. -/
theorem c4_zero_valid_no_writes (uid : Nat) (mt : String) (fd : FileData)
    (insf : CandidateTask → Option String) (db : List Task)
    (hmt : allowedTypes.contains mt = true)
    (hzero : validRows (parseFileRows fd) = []) :
    bulkUploadRoute uid mt (Except.ok fd) insf db =
      { response := BulkResponse.noValidTasks (rowErrors (parseFileRows fd)),
        db := db, tempFileAbsent := true } ∧
    (BulkResponse.noValidTasks (rowErrors (parseFileRows fd))).statusCode
      = 400 := by
  refine ⟨?_, rfl⟩
  have hmem : mt ∈ allowedTypes := by simpa using hmt
  simp [bulkUploadRoute, hmem, hzero]

/-- Witness for C4: a one-row file whose only row lacks a due date is
rejected with its error listed and an unchanged table. -/
theorem c4_zero_valid_no_writes_witness :
    bulkUploadRoute 7 "text/csv"
        (Except.ok (FileData.csv [[("title", "A")]])) (fun _ => none)
        [⟨1, 7, "Old", "", 2, "2024-12-31", "pending"⟩] =
      { response := BulkResponse.noValidTasks
          (rowErrors (parseFileRows (FileData.csv [[("title", "A")]]))),
        db := [⟨1, 7, "Old", "", 2, "2024-12-31", "pending"⟩],
        tempFileAbsent := true } ∧
    (BulkResponse.noValidTasks
        (rowErrors (parseFileRows (FileData.csv [[("title", "A")]])))).statusCode
      = 400 :=
  c4_zero_valid_no_writes 7 "text/csv" (FileData.csv [[("title", "A")]])
    (fun _ => none) [⟨1, 7, "Old", "", 2, "2024-12-31", "pending"⟩]
    (by decide) (by decide)

/-- C5: with an accepted file of `N` data rows of which `M` are valid
and every insert succeeding, the route appends exactly `M` rows, all
owned by the authenticated user, and reports `imported = M` with the
row errors (`N - M` of them, from the partition equation) attached only
when the error list is non-empty (`errors.length > 0 ? errors :
undefined`).  The last conjunct states the best-effort loop invariant
for arbitrary insert outcomes: one success per inserted task, one
appended message per failure, never aborting early. -/
theorem c5_best_effort_import (uid : Nat) (mt : String) (fd : FileData)
    (insf : CandidateTask → Option String) (db : List Task)
    (hmt : allowedTypes.contains mt = true)
    (hne : validRows (parseFileRows fd) ≠ [])
    (hok : ∀ c ∈ validRows (parseFileRows fd), insf c = none) :
    (∃ ts : List Task,
      bulkUploadRoute uid mt (Except.ok fd) insf db =
        { response := BulkResponse.imported
            (validRows (parseFileRows fd)).length
            (if (rowErrors (parseFileRows fd)).isEmpty then none
             else some (rowErrors (parseFileRows fd))),
          db := db ++ ts, tempFileAbsent := true } ∧
      ts.length = (validRows (parseFileRows fd)).length ∧
      ∀ t ∈ ts, t.user_id = uid) ∧
    (validRows (parseFileRows fd)).length + (rowErrors (parseFileRows fd)).length
      = (parseFileRows fd).length ∧
    (∀ (f : CandidateTask → Option String) (db0 : List Task)
        (errs0 : List String) (cs : List CandidateTask),
      (insertLoop uid f db0 errs0 cs).2.1 =
        (cs.filter fun c => (f c).isNone).length ∧
      (insertLoop uid f db0 errs0 cs).2.2.length =
        errs0.length + (cs.filter fun c => (f c).isSome).length) := by
  refine ⟨?_, validRows_add_rowErrors_length _,
    fun f db0 errs0 cs => insertLoop_processes_all uid f cs db0 errs0⟩
  obtain ⟨ts, h1, h2, h3⟩ := insertLoop_all_ok uid insf
    (validRows (parseFileRows fd)) db (rowErrors (parseFileRows fd)) hok
  refine ⟨ts, ?_, h2, h3⟩
  have hempty : (validRows (parseFileRows fd)).isEmpty = false := by
    cases hv : validRows (parseFileRows fd) with
    | nil => exact absurd hv hne
    | cons a l => rfl
  have hmem : mt ∈ allowedTypes := by simpa using hmt
  simp [bulkUploadRoute, hmem, hempty, h1]

/-- Witness for C5: a two-row file with one valid and one invalid row
imports exactly one task for user 7 and reports the single row error. -/
theorem c5_best_effort_import_witness :
    ∃ ts : List Task,
      bulkUploadRoute 7 "text/csv"
          (Except.ok (FileData.csv
            [[("title", "A"), ("due_date", "2024-12-31"), ("effort_days", "2")],
             [("title", ""), ("due_date", "2024-12-30")]]))
          (fun _ => none) [] =
        { response := BulkResponse.imported
            (validRows (parseFileRows (FileData.csv
              [[("title", "A"), ("due_date", "2024-12-31"), ("effort_days", "2")],
               [("title", ""), ("due_date", "2024-12-30")]]))).length
            (if (rowErrors (parseFileRows (FileData.csv
                  [[("title", "A"), ("due_date", "2024-12-31"), ("effort_days", "2")],
                   [("title", ""), ("due_date", "2024-12-30")]]))).isEmpty
             then none
             else some (rowErrors (parseFileRows (FileData.csv
               [[("title", "A"), ("due_date", "2024-12-31"), ("effort_days", "2")],
                [("title", ""), ("due_date", "2024-12-30")]])))),
          db := [] ++ ts, tempFileAbsent := true } ∧
      ts.length = (validRows (parseFileRows (FileData.csv
        [[("title", "A"), ("due_date", "2024-12-31"), ("effort_days", "2")],
         [("title", ""), ("due_date", "2024-12-30")]]))).length ∧
      ∀ t ∈ ts, t.user_id = 7 :=
  (c5_best_effort_import 7 "text/csv"
    (FileData.csv
      [[("title", "A"), ("due_date", "2024-12-31"), ("effort_days", "2")],
       [("title", ""), ("due_date", "2024-12-30")]])
    (fun _ => none) [] (by decide) (by decide) (by decide)).1

/-- C6: an upload whose declared MIME type is neither CSV nor a
spreadsheet type is stopped by the multer `fileFilter` with the
invalid-file-type error, which the error middleware answers with 400;
no row is parsed (the outcome is independent of the file contents), no
write happens, and no temporary file remains. -/
theorem c6_unsupported_type_rejected (uid : Nat) (mt : String)
    (file : Except String FileData) (insf : CandidateTask → Option String)
    (db : List Task) (hmt : allowedTypes.contains mt = false) :
    bulkUploadRoute uid mt file insf db =
      { response := BulkResponse.invalidFileType invalidFileTypeMessage,
        db := db, tempFileAbsent := true } ∧
    errorMiddlewareStatus none invalidFileTypeMessage = 400 := by
  refine ⟨?_, by decide⟩
  have hmem : mt ∉ allowedTypes := by simpa using hmt
  simp [bulkUploadRoute, hmem]

/-- Witness for C6: a `text/plain` upload is rejected with 400 and
leaves the table alone, whatever the file contains. -/
theorem c6_unsupported_type_rejected_witness :
    bulkUploadRoute 7 "text/plain"
        (Except.ok (FileData.csv
          [[("title", "A"), ("due_date", "2024-12-31")]]))
        (fun _ => none) [] =
      { response := BulkResponse.invalidFileType invalidFileTypeMessage,
        db := [], tempFileAbsent := true } ∧
    errorMiddlewareStatus none invalidFileTypeMessage = 400 :=
  c6_unsupported_type_rejected 7 "text/plain"
    (Except.ok (FileData.csv [[("title", "A"), ("due_date", "2024-12-31")]]))
    (fun _ => none) [] (by decide)

/-- C7: on every exit path of the bulk upload — filter rejection,
read/parse failure landing in the outer catch, the zero-valid 400, and
normal completion — the uploaded temporary file is gone by the time the
response is sent. -/
theorem c7_temp_file_always_removed (uid : Nat) (mt : String)
    (file : Except String FileData) (insf : CandidateTask → Option String)
    (db : List Task) :
    (bulkUploadRoute uid mt file insf db).tempFileAbsent = true := by
  unfold bulkUploadRoute
  split
  · split
    · rfl
    · dsimp only
      split
      · rfl
      · rfl
  · rfl

/-- C8, counterexample: field extraction on the CSV path is the exact
property-access chain `row.title || row.Title` (and likewise for the
other fields), not a case-insensitive match: a row keyed `TITLE` /
`DUE_DATE` / `EFFORT_DAYS` resolves nothing and is rejected, while the
same data under the exact aliases is accepted. -/
theorem c8_counterexample :
    RowResult.isErr
        (normalizeCsvRow
          [("TITLE", "Report"), ("DUE_DATE", "2024-12-31"),
           ("EFFORT_DAYS", "2")]) = true ∧
    normalizeCsvRow
        [("title", "Report"), ("due_date", "2024-12-31"),
         ("effort_days", "2")] =
      RowResult.ok
        { title := "Report", description := "", effort_days := 2,
          due_date := "2024-12-31" } := by
  decide

/-- C8 (amended): on the delimited-text path each field is extracted by
exact string match of the header-supplied column name against the fixed
aliases (`title`/`Title`, `description`/`Description`,
`effort_days`/`Effort (Days)`/`effort`, `due_date`/`Due Date`); a
header differing only in letter case (e.g. `TITLE`, `DUE_DATE`) does
not resolve the field.  The first conjunct states that a lookup only
ever returns a value stored under exactly the requested key. -/
theorem c8_exact_alias_matching :
    (∀ (row : List (String × String)) (k v : String),
      lookupField row k = some v → (k, v) ∈ row) ∧
    (∀ v : String, v ≠ "" →
      firstTruthy [("title", v)] csvTitleKeys = some v ∧
      firstTruthy [("Title", v)] csvTitleKeys = some v ∧
      firstTruthy [("TITLE", v)] csvTitleKeys = none ∧
      firstTruthy [("description", v)] csvDescrKeys = some v ∧
      firstTruthy [("Description", v)] csvDescrKeys = some v ∧
      firstTruthy [("DESCRIPTION", v)] csvDescrKeys = none ∧
      firstTruthy [("effort_days", v)] csvEffortKeys = some v ∧
      firstTruthy [("Effort (Days)", v)] csvEffortKeys = some v ∧
      firstTruthy [("effort", v)] csvEffortKeys = some v ∧
      firstTruthy [("EFFORT_DAYS", v)] csvEffortKeys = none ∧
      firstTruthy [("due_date", v)] csvDueKeys = some v ∧
      firstTruthy [("Due Date", v)] csvDueKeys = some v ∧
      firstTruthy [("DUE_DATE", v)] csvDueKeys = none) := by
  constructor
  · intro row k v h
    unfold lookupField at h
    cases hf : row.find? (fun p => p.1 == k) with
    | none => rw [hf] at h; cases h
    | some pr =>
      rw [hf] at h
      have hv : pr.2 = v := by
        simpa using h
      have hk : pr.1 = k := by
        have := List.find?_some hf
        simpa using this
      have hmem := List.mem_of_find?_eq_some hf
      have : (k, v) = pr := by
        cases pr
        simp_all
      rw [this]
      exact hmem
  · intro v hv
    have hb : (v == "") = false := by simpa using hv
    refine ⟨?_, ?_, ?_, ?_, ?_, ?_, ?_, ?_, ?_, ?_, ?_, ?_, ?_⟩ <;>
      simp [firstTruthy, lookupField, csvTitleKeys, csvDescrKeys,
        csvEffortKeys, csvDueKeys, hb]

/-- Witness for C8 (amended): lookup on a concrete one-entry row only
finds the exact key, and the alias/casing behaviour at `v = "X"`. -/
theorem c8_exact_alias_matching_witness :
    ("a", "b") ∈ [("a", "b")] ∧
    (firstTruthy [("title", "X")] csvTitleKeys = some "X" ∧
     firstTruthy [("Title", "X")] csvTitleKeys = some "X" ∧
     firstTruthy [("TITLE", "X")] csvTitleKeys = none ∧
     firstTruthy [("description", "X")] csvDescrKeys = some "X" ∧
     firstTruthy [("Description", "X")] csvDescrKeys = some "X" ∧
     firstTruthy [("DESCRIPTION", "X")] csvDescrKeys = none ∧
     firstTruthy [("effort_days", "X")] csvEffortKeys = some "X" ∧
     firstTruthy [("Effort (Days)", "X")] csvEffortKeys = some "X" ∧
     firstTruthy [("effort", "X")] csvEffortKeys = some "X" ∧
     firstTruthy [("EFFORT_DAYS", "X")] csvEffortKeys = none ∧
     firstTruthy [("due_date", "X")] csvDueKeys = some "X" ∧
     firstTruthy [("Due Date", "X")] csvDueKeys = some "X" ∧
     firstTruthy [("DUE_DATE", "X")] csvDueKeys = none) :=
  ⟨c8_exact_alias_matching.1 [("a", "b")] "a" "b" (by decide),
   c8_exact_alias_matching.2 "X" (by decide)⟩

end TaskApp
